import Mathlib

/-!
Verification of the rag-chat request-orchestration pipeline.

The definitions below are a shallow embedding of the TypeScript sources:

* `sanitizeQuestion`, `appendDefaultsIfNeeded` — `src/utils.ts`
* `RAGChat.chat`, `RAGChat.getOptionsWithDefaults`, `RAGChat.checkRatelimit`,
  `RAGChat.addUserMessageToHistory`, `RAGChat.getChatHistory`,
  `RAGChat.constructor` — `src/unnamed/part_000` (the `RAGChat` class file)
* `RAGChatBase.prepareChat` — `src/rag-chat-base.ts`

Collaborator services (`HistoryService`, `ContextService`, `RateLimitService`,
`LLMService`, the `Config` class and the constants module) are not part of the
provided sources; where a definition stands in for one of them it is marked
`Modelled from the spec:` and follows the specification's description of that
collaborator.

JavaScript machine details that matter here are made explicit:
* a JS object property is absent, present-but-`undefined`, or defined — modelled
  by `Option (Option α)` (`JsProp`);
* object spread `{ ...defaults, ...options }` lets a present-but-`undefined`
  key override a default — modelled by `spreadField`;
* `structuredClone` hands a callback a value-equal copy, so in-place mutation
  by the callback cannot reach the original — modelled by passing the hook the
  same pure value and recording the hook's mutation result separately.
-/

/-! ## Sanitization (`sanitizeQuestion`, src/utils.ts lines 13-15) -/

/-- The whitespace characters relevant to JavaScript `String.prototype.trim`
(restricted to the ASCII range, which covers every character the claims and
scenarios exercise): space, tab, line feed, carriage return, vertical tab,
form feed. -/
def isJsWhitespace (c : Char) : Bool :=
  c = ' ' || c = '\t' || c = '\n' || c = '\r' || c = Char.ofNat 11 || c = Char.ofNat 12

/-- JavaScript `String.prototype.trim` on the character list: drop leading and
trailing whitespace. -/
def jsTrimChars (l : List Char) : List Char :=
  ((l.dropWhile isJsWhitespace).reverse.dropWhile isJsWhitespace).reverse

/-- The character replacement performed by `.replaceAll("\n", " ")`. -/
def newlineToSpace (c : Char) : Char :=
  if c = '\n' then ' ' else c

/-- Embedding of `sanitizeQuestion` (src/utils.ts): `question.trim().replaceAll("\n", " ")`.
Since the pattern is the single character `"\n"`, `replaceAll` is the
character-wise map `newlineToSpace`. -/
def sanitizeQuestion (question : String) : String :=
  String.mk ((jsTrimChars question.data).map newlineToSpace)

/-! ## Messages and the history store -/

/-- Message roles as written by the orchestrator: `addUserMessageToHistory`
stores `"user"`, the `onComplete` callback stores `"assistant"`
(src/unnamed/part_000 lines 108-115 and 166-171). -/
inductive Role where
  | user
  | assistant
deriving DecidableEq

/-- The metadata bag attached to messages (an arbitrary key-value object). -/
abbrev UpstashDict := List (String × String)

/-- A message as stored by `HistoryService.addMessage`: the orchestrator passes
`content`, `role` and (for assistant messages only) `metadata`. -/
structure StoredMessage where
  content : String
  role : Role
  metadata : Option UpstashDict := none
deriving DecidableEq

/-- The per-session message log. Entries are newest-first: an append prepends.
The pair's first component is the session id the entry was stored under. -/
abbrev HistoryStore := List (String × StoredMessage)

/-- Embedding of `HistoryService.addMessage` as seen by the orchestrator: append one message
under a session id. (The service itself is a thin store adapter; §4.3.) -/
def addMessage (store : HistoryStore) (sessionId : String) (message : StoredMessage) :
    HistoryStore :=
  (sessionId, message) :: store

/-- Modelled from the spec: `HistoryService.getMessages` (§4.3, not under
src/) returns the most-recent `amount` messages of the session, newest-first;
the orchestrator is responsible for reordering. -/
def getMessages (store : HistoryStore) (sessionId : String) (amount : Nat) :
    List StoredMessage :=
  ((store.filter (fun e => e.1 = sessionId)).map (fun e => e.2)).take amount

/-- The line renderer inlined in `RAGChat.getChatHistory`
(src/unnamed/part_000 lines 156-160). -/
def historyLine (message : StoredMessage) : String :=
  if message.role = Role.user then "USER MESSAGE: " ++ message.content
  else "YOUR MESSAGE: " ++ message.content

/-- Outcome of running the `onChatHistoryFetched` hook on its argument array:
`argAfter` is the argument array's contents after the call (the hook may
mutate it in place), `ret` is the hook's return value (`none` = `undefined`). -/
structure HookResult where
  argAfter : List StoredMessage
  ret : Option (List StoredMessage)

/-- The `onChatHistoryFetched` callback. -/
abbrev ChatHistoryHook := List StoredMessage → HookResult

/-- The body of `RAGChat.getChatHistory` after the `getMessages` call
(src/unnamed/part_000 lines 148-161): clone the fetched history, offer the
clone to the optional hook, use the hook's return value if it returned one and
otherwise the *original* fetched history, then reverse, render and join.
`structuredClone` yields a value-equal fresh array, so the hook's in-place
mutation (`argAfter`) touches only the clone and is discarded. -/
def processChatHistory (originalChatHistory : List StoredMessage)
    (hook : Option ChatHistoryHook) : String :=
  let clonedChatHistory := originalChatHistory
  let modifiedChatHistory :=
    match hook with
    | none => originalChatHistory
    | some h => (h clonedChatHistory).ret.getD originalChatHistory
  String.intercalate "\n" (modifiedChatHistory.reverse.map historyLine)

/-- Embedding of `RAGChat.getChatHistory` (src/unnamed/part_000 lines 141-164): fetch the
last `historyLength` messages of the session, then process them. -/
def getChatHistory (store : HistoryStore) (sessionId : String) (historyLength : Nat)
    (hook : Option ChatHistoryHook) : String :=
  processChatHistory (getMessages store sessionId historyLength) hook

/-! ## Option resolution (`getOptionsWithDefaults`, `appendDefaultsIfNeeded`)

JavaScript object semantics made explicit: a property of an options object is
either absent from the object, present holding `undefined`, or defined. -/

/-- A JavaScript property slot: `none` = key absent; `some none` = key present
holding `undefined`; `some (some v)` = key present with a defined value. -/
abbrev JsProp (α : Type) := Option (Option α)

/-- Prompt template functions, by identity: the two default templates from the
constants module (not under src/; §4.5 describes a RAG template and a
no-context template) and caller-supplied custom functions. -/
inductive PromptFnV where
  | defaultRAG
  | defaultNoRAG
  | custom (id : Nat)
deriving DecidableEq

/-- Modelled from the spec: `DEFAULT_CHAT_SESSION_ID` from the constants
module (not under src/). -/
def DEFAULT_CHAT_SESSION_ID : String := "upstash-rag-chat-session"

/-- Modelled from the spec: `DEFAULT_CHAT_RATELIMIT_SESSION_ID` from the
constants module (not under src/). -/
def DEFAULT_CHAT_RATELIMIT_SESSION_ID : String := "upstash-rag-chat-ratelimit-session"

/-- Modelled from the spec: `DEFAULT_SIMILARITY_THRESHOLD` from the constants
module (not under src/). -/
def DEFAULT_SIMILARITY_THRESHOLD : ℚ := 1 / 2

/-- Modelled from the spec: `DEFAULT_TOP_K` from the constants module. -/
def DEFAULT_TOP_K : Nat := 5

/-- Modelled from the spec: `DEFAULT_HISTORY_LENGTH` from the constants
module. -/
def DEFAULT_HISTORY_LENGTH : Nat := 5

/-- Modelled from the spec: `DEFAULT_HISTORY_TTL` from the constants module. -/
def DEFAULT_HISTORY_TTL : Nat := 86400

/-- Modelled from the spec: `DEFAULT_NAMESPACE` from the constants module. -/
def DEFAULT_NAMESPACE : String := ""

/-- The call-site `ChatOptions` object as `appendDefaultsIfNeeded` and
`getOptionsWithDefaults` consume it (the field set referenced by src/utils.ts
lines 31-52 and src/unnamed/part_000 lines 187-200). Every field is a JS
property slot. -/
structure ChatOptionsObj where
  streaming : JsProp Bool := none
  sessionId : JsProp String := none
  ratelimitSessionId : JsProp String := none
  historyLength : JsProp Nat := none
  historyTTL : JsProp Nat := none
  similarityThreshold : JsProp ℚ := none
  topK : JsProp Nat := none
  «namespace» : JsProp String := none
  metadata : JsProp UpstashDict := none
  disableRAG : JsProp Bool := none
  promptFn : JsProp PromptFnV := none
deriving DecidableEq

/-- Modelled from the spec: the instance-level defaults carried by the
`Config` object (the `Config` class is not under src/). §4.1 places the
"instance-configured default" between the call-site value and the global
constant default, so each may be absent. -/
structure ConfigDefaults where
  metadata : Option UpstashDict := none
  «namespace» : Option String := none
  streaming : Option Bool := none
  sessionId : Option String := none
  ratelimitSessionId : Option String := none
  prompt : Option PromptFnV := none
deriving DecidableEq

/-- The runtime value of the object returned by `appendDefaultsIfNeeded`:
each field's value as a property read observes it (`none` = `undefined`).
The source annotates this object as `Required<Omit<ChatOptions, ...>>`,
i.e. it declares every one of these fields defined. -/
structure ResolvedOptionsObj where
  streaming : Option Bool
  sessionId : Option String
  ratelimitSessionId : Option String
  historyLength : Option Nat
  historyTTL : Option Nat
  similarityThreshold : Option ℚ
  topK : Option Nat
  «namespace» : Option String
  metadata : Option UpstashDict
  disableRAG : Option Bool
  promptFn : Option PromptFnV
deriving DecidableEq

/-- The value a property read observes on a JS property slot: an absent key
reads as `undefined`. -/
def joinProp {α : Type} (p : JsProp α) : Option α :=
  match p with
  | none => none
  | some v => v

/-- The value of `options?.f` in JS: `undefined` when the whole object or the
key is absent or the key holds `undefined`. -/
def jsGet {α : Type} (options : Option ChatOptionsObj) (f : ChatOptionsObj → JsProp α) :
    Option α :=
  match options with
  | none => none
  | some o => joinProp (f o)

/-- The contribution of one spread field in `{ default, ...options }`: a key
absent from `options` leaves the default; a present key overrides it even when
it holds `undefined`. -/
def spreadField {α : Type} (dflt : α) (p : JsProp α) : Option α :=
  match p with
  | none => some dflt
  | some v => v

/-- Embedding of `appendDefaultsIfNeeded` (src/utils.ts lines 31-52): the object literal
lists the global defaults first and then spreads `...options`, so any key
present on `options` — including one holding `undefined` — overrides its
default. `promptFn` has no default in the literal and survives only through
the spread. An `undefined` `options` argument spreads nothing. -/
def appendDefaultsIfNeeded (options : Option ChatOptionsObj) : ResolvedOptionsObj :=
  match options with
  | none =>
    { streaming := some false
      metadata := some []
      disableRAG := some false
      sessionId := some DEFAULT_CHAT_SESSION_ID
      ratelimitSessionId := some DEFAULT_CHAT_RATELIMIT_SESSION_ID
      similarityThreshold := some DEFAULT_SIMILARITY_THRESHOLD
      topK := some DEFAULT_TOP_K
      historyLength := some DEFAULT_HISTORY_LENGTH
      historyTTL := some DEFAULT_HISTORY_TTL
      «namespace» := some DEFAULT_NAMESPACE
      promptFn := none }
  | some o =>
    { streaming := spreadField false o.streaming
      metadata := spreadField [] o.metadata
      disableRAG := spreadField false o.disableRAG
      sessionId := spreadField DEFAULT_CHAT_SESSION_ID o.sessionId
      ratelimitSessionId := spreadField DEFAULT_CHAT_RATELIMIT_SESSION_ID o.ratelimitSessionId
      similarityThreshold := spreadField DEFAULT_SIMILARITY_THRESHOLD o.similarityThreshold
      topK := spreadField DEFAULT_TOP_K o.topK
      historyLength := spreadField DEFAULT_HISTORY_LENGTH o.historyLength
      historyTTL := spreadField DEFAULT_HISTORY_TTL o.historyTTL
      «namespace» := spreadField DEFAULT_NAMESPACE o.«namespace»
      promptFn := joinProp o.promptFn }

/-- Embedding of `RAGChat.getOptionsWithDefaults` (src/unnamed/part_000 lines 187-200):
builds the intermediate object literal `{ ...options, metadata: options?.metadata
?? config.metadata, namespace: ..., streaming: ..., sessionId: ...,
ratelimitSessionId: ..., promptFn: ... }` — the six explicit keys are always
present (possibly holding `undefined`) — and hands it to
`appendDefaultsIfNeeded`. `isRagDisabledAndPromptFunctionMissing` is
`options?.disableRAG && !options.promptFn` (short-circuit: the second operand
is only read when the first is truthy). -/
def getOptionsWithDefaults (config : ConfigDefaults) (options : Option ChatOptionsObj) :
    ResolvedOptionsObj :=
  let isRagDisabledAndPromptFunctionMissing :=
    match jsGet options (fun o => o.disableRAG) with
    | some true => (jsGet options (fun o => o.promptFn)).isNone
    | _ => false
  let intermediate : ChatOptionsObj :=
    { historyLength :=
        match options with | none => none | some o => o.historyLength
      historyTTL :=
        match options with | none => none | some o => o.historyTTL
      similarityThreshold :=
        match options with | none => none | some o => o.similarityThreshold
      topK :=
        match options with | none => none | some o => o.topK
      disableRAG :=
        match options with | none => none | some o => o.disableRAG
      metadata := some (jsGet options (fun o => o.metadata) <|> config.metadata)
      «namespace» := some (jsGet options (fun o => o.«namespace») <|> config.«namespace»)
      streaming := some (jsGet options (fun o => o.streaming) <|> config.streaming)
      sessionId := some (jsGet options (fun o => o.sessionId) <|> config.sessionId)
      ratelimitSessionId :=
        some (jsGet options (fun o => o.ratelimitSessionId) <|> config.ratelimitSessionId)
      promptFn :=
        some (if isRagDisabledAndPromptFunctionMissing then some PromptFnV.defaultNoRAG
              else (jsGet options (fun o => o.promptFn) <|> config.prompt)) }
  appendDefaultsIfNeeded (some intermediate)

/-! ## Constructor (src/unnamed/part_000 lines 39-63) -/

/-- The construction-time configuration errors of §7: `UpstashVectorError`
("Vector can not be undefined!") and `UpstashError` ("Model can not be
undefined!"), both thrown synchronously by the constructor. -/
inductive ConfigurationError where
  | vectorUndefined
  | modelUndefined
deriving DecidableEq

/-- Modelled from the spec: the resolved `Config` object as the constructor
reads it (the `Config` class is not under src/). §6 lists model, vector store,
history store, rate limiter, namespace and debug toggle on the construction
surface; model and vector references may be absent. -/
structure InstanceConfig where
  vector : Option String := none
  model : Option String := none
  redis : Option String := none
  ratelimit : Bool := false
  debug : Bool := false
  «namespace» : Option String := none
deriving DecidableEq

/-- The successfully constructed orchestrator state: the pieces of the
`RAGChat` instance the constructor assembles after its two guards pass. -/
structure RAGChatInstance where
  contextNamespace : String
  hasRedis : Bool
  hasRatelimit : Bool
  debugEnabled : Bool
deriving DecidableEq

/-- The `RAGChat` constructor (src/unnamed/part_000 lines 39-63): after
resolving the config it checks `this.config.vector` and then
`this.config.model`, throwing synchronously when either is missing, and only
then builds the services (pure object construction; no collaborator is
contacted). -/
def ragChatConstructor (config : InstanceConfig) :
    Except ConfigurationError RAGChatInstance :=
  if config.vector.isNone then Except.error ConfigurationError.vectorUndefined
  else if config.model.isNone then Except.error ConfigurationError.modelUndefined
  else Except.ok
    { contextNamespace := config.«namespace».getD DEFAULT_NAMESPACE
      hasRedis := config.redis.isSome
      hasRatelimit := config.ratelimit
      debugEnabled := config.debug }

/-! ## The chat pipeline (`RAGChat.chat`, src/unnamed/part_000 lines 75-124) -/

/-- The `RatelimitResponse` record: decision plus reset time (§2, §4.2). -/
structure RatelimitResponse where
  success : Bool
  reset : Nat
deriving DecidableEq

/-- The errors `chat` can signal: `RatelimitUpstashError` carrying the reset
time (src/unnamed/part_000 lines 180-183), or an error propagated verbatim
from a collaborator (context retrieval, history fetch, model call). -/
inductive ChatError where
  | rateLimited (resetTime : Nat)
  | collaborator (message : String)
deriving DecidableEq

/-- The argument record of a prompt function:
`{ chatHistory?: string; question: string; context: string }`. -/
structure PromptParameters where
  chatHistory : String
  question : String
  context : String
deriving DecidableEq

/-- The value `chat` resolves with: the model output (for a stream, its full
concatenated text) and the mode tag. -/
structure ChatOutput where
  output : String
  isStream : Bool
deriving DecidableEq

/-- Observable steps of one `chat` call, in execution order. Used to state
the sequencing claims. -/
inductive Event where
  | ratelimitChecked (response : RatelimitResponse)
  | ratelimitDetailsInvoked (response : RatelimitResponse)
  | rateLimitedThrown (resetTime : Nat)
  | userMessageAppended (content : String)
  | sanitized (question : String)
  | contextRequested (question : String)
  | historyFetched
  | promptBuilt (prompt : String)
  | modelInvoked (prompt : String)
  | assistantMessageAppended (content : String)
deriving DecidableEq

/-- Returns `true` exactly on `assistantMessageAppended` events. -/
def isAssistantAppendEvent : Event → Bool
  | Event.assistantMessageAppended _ => true
  | _ => false

/-- The collaborators a single `chat` call consults, as oracles:
`checkLimit` is `RateLimitService.checkLimit` (§4.2, not under src/);
`getContext` is the outcome of `ContextService.getContext` as a function of
the question string the orchestrator passes (§4.4, not under src/);
`historyOutcome` lets the history read fail; `callModel` is the model
invocation outcome as a function of the prompt (§4.6, not under src/). -/
structure ChatEnv where
  checkLimit : String → RatelimitResponse
  getContext : String → Except String String
  historyOutcome : Except String Unit
  callModel : String → Except String String

/-- The fully resolved options record as the pipeline consumes it
(`ModifiedChatOptions`). `hasRatelimitDetails` records whether the caller
supplied the `ratelimitDetails` callback; `onChatHistoryFetched` is the
optional history hook; `promptFn` is the active prompt template. -/
structure ModifiedChatOptions where
  streaming : Bool
  sessionId : String
  ratelimitSessionId : String
  historyLength : Nat
  metadata : UpstashDict
  promptFn : PromptParameters → String
  hasRatelimitDetails : Bool
  onChatHistoryFetched : Option ChatHistoryHook

/-- The observable result of one `chat` call: the settled value, the final
history store, and the event trace. -/
structure ChatResult where
  res : Except ChatError ChatOutput
  store : HistoryStore
  trace : List Event

/-- Embedding of `RAGChat.chat` (src/unnamed/part_000 lines 75-124) after option
resolution, step for step:
1. `checkRatelimit` (lines 173-185): obtain the rate-limit response for the
   resolved rate-limit session id, invoke the `ratelimitDetails` callback when
   supplied, then throw `RatelimitUpstashError` with the response's reset time
   when `success` is false.
2. `addUserMessageToHistory` (lines 166-171): append the *raw* input with role
   `"user"` and no metadata.
3. Sanitize the input into `question` (line 88).
4. `context.getContext(optionsWithDefault, input)` (line 89) — note the source
   passes the raw `input`, not the sanitized `question`.
5. `getChatHistory` (lines 141-164) on the store that already holds the user
   turn.
6. `generatePrompt` (lines 126-139): apply the resolved prompt function to
   `{ context, question, chatHistory }`.
7. `llm.callLLM` (lines 100-119; the service is modelled from §4.6: on
   completion it invokes the `onComplete` hook exactly once with the full
   output). The `onComplete` closure (lines 106-116) appends the output with
   role `"assistant"` and the resolved metadata.
Any collaborator error aborts the chain and is re-thrown unchanged. -/
def chat (opts : ModifiedChatOptions) (env : ChatEnv) (input : String)
    (store : HistoryStore) : ChatResult :=
  let ratelimitResponse := env.checkLimit opts.ratelimitSessionId
  let t0 := [Event.ratelimitChecked ratelimitResponse] ++
    (if opts.hasRatelimitDetails then [Event.ratelimitDetailsInvoked ratelimitResponse] else [])
  if ratelimitResponse.success = false then
    { res := Except.error (ChatError.rateLimited ratelimitResponse.reset)
      store := store
      trace := t0 ++ [Event.rateLimitedThrown ratelimitResponse.reset] }
  else
    let store1 := addMessage store opts.sessionId
      { content := input, role := Role.user, metadata := none }
    let question := sanitizeQuestion input
    let t2 := t0 ++ [Event.userMessageAppended input, Event.sanitized question,
      Event.contextRequested input]
    match env.getContext input with
    | Except.error e =>
      { res := Except.error (ChatError.collaborator e), store := store1, trace := t2 }
    | Except.ok context =>
      match env.historyOutcome with
      | Except.error e =>
        { res := Except.error (ChatError.collaborator e), store := store1, trace := t2 }
      | Except.ok _ =>
        let formattedHistory :=
          getChatHistory store1 opts.sessionId opts.historyLength opts.onChatHistoryFetched
        let prompt := opts.promptFn
          { chatHistory := formattedHistory, question := question, context := context }
        let t4 := t2 ++ [Event.historyFetched, Event.promptBuilt prompt,
          Event.modelInvoked prompt]
        match env.callModel prompt with
        | Except.error e =>
          { res := Except.error (ChatError.collaborator e), store := store1, trace := t4 }
        | Except.ok output =>
          { res := Except.ok { output := output, isStream := opts.streaming }
            store := addMessage store1 opts.sessionId
              { content := output, role := Role.assistant, metadata := some opts.metadata }
            trace := t4 ++ [Event.assistantMessageAppended output] }

/-- Embedding of `RAGChatBase.prepareChat` (src/rag-chat-base.ts lines 35-49): sanitize the
input and retrieve with the *sanitized* question. The vector service is the
retrieval oracle. -/
def prepareChat (retrieve : String → String) (input : String) : String × String :=
  let question := sanitizeQuestion input
  let facts := retrieve question
  (question, facts)

/-! ## Shared concrete instances used by witnesses -/

/-- A concrete options record used to instantiate the pipeline theorems. -/
def sampleOpts : ModifiedChatOptions :=
  { streaming := false
    sessionId := "session-1"
    ratelimitSessionId := "rl-session-1"
    historyLength := 5
    metadata := [("source", "test")]
    promptFn := fun p => p.question ++ "|" ++ p.context ++ "|" ++ p.chatHistory
    hasRatelimitDetails := true
    onChatHistoryFetched := none }

/-- A concrete environment whose rate limiter always allows. -/
def sampleEnvOk : ChatEnv :=
  { checkLimit := fun _ => { success := true, reset := 0 }
    getContext := fun _ => Except.ok "CTX"
    historyOutcome := Except.ok ()
    callModel := fun _ => Except.ok "ANSWER" }

/-- A concrete environment whose rate limiter rejects with reset time 42. -/
def sampleEnvLimited : ChatEnv :=
  { checkLimit := fun _ => { success := false, reset := 42 }
    getContext := fun _ => Except.ok "CTX"
    historyOutcome := Except.ok ()
    callModel := fun _ => Except.ok "ANSWER" }

/-- Two concrete stored messages for history-formatting witnesses. -/
def sampleMsgUser : StoredMessage :=
  { content := "hello", role := Role.user, metadata := none }

/-- A concrete assistant message for history-formatting witnesses. -/
def sampleMsgAssistant : StoredMessage :=
  { content := "hi there", role := Role.assistant, metadata := some [] }

/-- A concrete store: assistant reply newest, user message older, plus an
entry of another session. -/
def sampleStore : HistoryStore :=
  [("session-1", sampleMsgAssistant), ("session-1", sampleMsgUser),
   ("other", sampleMsgUser)]

/-- The sanitization scenario input from §8. -/
def scenarioInput : String := "Where  is\nthe capital of Turkey?"

/-- A hook that empties its argument array in place and returns `undefined`. -/
def sampleHookMutating : ChatHistoryHook :=
  fun _ => { argAfter := [], ret := none }

/-- A hook that replaces the history with a single user message. -/
def sampleHookReplacing : ChatHistoryHook :=
  fun _ => { argAfter := [], ret := some [sampleMsgUser] }

/-- Call-site options disabling RAG without supplying a prompt function. -/
def sampleOptsNoRAG : ChatOptionsObj :=
  { disableRAG := some (some true) }

/-- Call-site options supplying a custom prompt function. -/
def sampleOptsCustomPrompt : ChatOptionsObj :=
  { promptFn := some (some (PromptFnV.custom 7)) }

/-! ## Theorems -/

theorem dropWhile_head_not (p : Char → Bool) :
    ∀ (l : List Char) c t, l.dropWhile p = c :: t → p c = false := by
  intro l
  induction l with
  | nil => intro c t h; simp [List.dropWhile] at h
  | cons a as ih =>
    intro c t h
    rw [List.dropWhile_cons] at h
    by_cases hpa : p a
    · simp [hpa] at h
      exact ih c t h
    · simp [hpa] at h
      rw [← h.1]
      simpa using hpa

theorem dropWhile_eq_self_of_head (p : Char → Bool) (l : List Char)
    (h : ∀ c ∈ l.head?, p c = false) : l.dropWhile p = l := by
  cases l with
  | nil => rfl
  | cons a as =>
    rw [List.dropWhile_cons]
    have := h a (by simp)
    simp [this]

theorem getLast?_dropWhile (p : Char → Bool) :
    ∀ (l : List Char), l.dropWhile p ≠ [] → (l.dropWhile p).getLast? = l.getLast? := by
  intro l
  induction l with
  | nil => intro h; simp at h
  | cons a as ih =>
    intro h
    rw [List.dropWhile_cons] at h ⊢
    by_cases hpa : p a
    · rw [if_pos hpa] at h ⊢
      rw [ih h]
      have has : as ≠ [] := by
        intro hnil
        rw [hnil] at h
        simp at h
      cases as with
      | nil => exact absurd rfl has
      | cons b bs => rw [List.getLast?_cons_cons]
    · rw [if_neg hpa]

theorem jsTrimChars_head (l : List Char) :
    ∀ c ∈ (jsTrimChars l).head?, isJsWhitespace c = false := by
  intro c hc
  unfold jsTrimChars at hc
  rw [List.head?_reverse] at hc
  by_cases hnil : (l.dropWhile isJsWhitespace).reverse.dropWhile isJsWhitespace = []
  · rw [hnil] at hc; simp at hc
  · rw [getLast?_dropWhile _ _ hnil, List.getLast?_reverse] at hc
    cases hx : (l.dropWhile isJsWhitespace) with
    | nil => rw [hx] at hc; simp at hc
    | cons x xs =>
      rw [hx] at hc
      simp only [List.head?_cons, Option.mem_def, Option.some.injEq] at hc
      rw [← hc]
      exact dropWhile_head_not _ _ _ _ hx

theorem jsTrimChars_getLast (l : List Char) :
    ∀ c ∈ (jsTrimChars l).getLast?, isJsWhitespace c = false := by
  intro c hc
  unfold jsTrimChars at hc
  rw [List.getLast?_reverse] at hc
  cases hx : (l.dropWhile isJsWhitespace).reverse.dropWhile isJsWhitespace with
  | nil => rw [hx] at hc; simp at hc
  | cons x xs =>
    rw [hx] at hc
    simp only [List.head?_cons, Option.mem_def, Option.some.injEq] at hc
    rw [← hc]
    exact dropWhile_head_not _ _ _ _ hx

theorem jsTrimChars_of_trimmed (l : List Char)
    (hh : ∀ c ∈ l.head?, isJsWhitespace c = false)
    (hl : ∀ c ∈ l.getLast?, isJsWhitespace c = false) :
    jsTrimChars l = l := by
  unfold jsTrimChars
  rw [dropWhile_eq_self_of_head _ _ hh]
  rw [dropWhile_eq_self_of_head _ _ (by simpa using hl)]
  exact l.reverse_reverse

theorem newlineToSpace_ne_newline (c : Char) : newlineToSpace c ≠ '\n' := by
  unfold newlineToSpace
  by_cases h : c = '\n' <;> simp [h]

theorem newlineToSpace_of_not_ws (c : Char) (h : isJsWhitespace c = false) :
    newlineToSpace c = c := by
  unfold newlineToSpace
  have : c ≠ '\n' := by
    intro hc
    rw [hc] at h
    simp [isJsWhitespace] at h
  simp [this]

theorem sanitize_data (s : String) :
    (sanitizeQuestion s).data = (jsTrimChars s.data).map newlineToSpace := rfl

/-- Claim C6: for every input string, sanitization yields a string containing
no newline characters and no leading or trailing whitespace, replacing each
interior newline (each position of the trimmed input holding a newline) with a
single space while leaving every other character untouched, and sanitization
is idempotent. -/
theorem claim_C6_sanitization (s : String) :
    (∀ c ∈ (sanitizeQuestion s).data, c ≠ '\n')
  ∧ (∀ c ∈ (sanitizeQuestion s).data.head?, isJsWhitespace c = false)
  ∧ (∀ c ∈ (sanitizeQuestion s).data.getLast?, isJsWhitespace c = false)
  ∧ (sanitizeQuestion s).data.length = (jsTrimChars s.data).length
  ∧ (∀ i : Nat,
      ((jsTrimChars s.data)[i]? = some '\n' → (sanitizeQuestion s).data[i]? = some ' ')
    ∧ (∀ c, c ≠ '\n' → (jsTrimChars s.data)[i]? = some c →
        (sanitizeQuestion s).data[i]? = some c))
  ∧ sanitizeQuestion (sanitizeQuestion s) = sanitizeQuestion s := by
  refine ⟨?_, ?_, ?_, ?_, ?_, ?_⟩
  · intro c hc
    rw [sanitize_data] at hc
    rcases List.mem_map.mp hc with ⟨a, _, ha⟩
    rw [← ha]
    exact newlineToSpace_ne_newline a
  · intro c hc
    rw [sanitize_data, List.head?_map] at hc
    rcases Option.map_eq_some'.mp hc with ⟨a, ha, hfa⟩
    have hw := jsTrimChars_head s.data a ha
    rw [← hfa, newlineToSpace_of_not_ws a hw]
    exact hw
  · intro c hc
    rw [sanitize_data, List.getLast?_map] at hc
    rcases Option.map_eq_some'.mp hc with ⟨a, ha, hfa⟩
    have hw := jsTrimChars_getLast s.data a ha
    rw [← hfa, newlineToSpace_of_not_ws a hw]
    exact hw
  · rw [sanitize_data, List.length_map]
  · intro i
    constructor
    · intro hi
      rw [sanitize_data, List.getElem?_map, hi]
      rfl
    · intro c hc hi
      rw [sanitize_data, List.getElem?_map, hi, Option.map_some']
      have : newlineToSpace c = c := by
        unfold newlineToSpace
        simp [hc]
      rw [this]
  · have hnl : ∀ c ∈ (sanitizeQuestion s).data, c ≠ '\n' := by
      intro c hc
      rw [sanitize_data] at hc
      rcases List.mem_map.mp hc with ⟨a, _, ha⟩
      rw [← ha]
      exact newlineToSpace_ne_newline a
    have hh : ∀ c ∈ (sanitizeQuestion s).data.head?, isJsWhitespace c = false := by
      intro c hc
      rw [sanitize_data, List.head?_map] at hc
      rcases Option.map_eq_some'.mp hc with ⟨a, ha, hfa⟩
      have hw := jsTrimChars_head s.data a ha
      rw [← hfa, newlineToSpace_of_not_ws a hw]
      exact hw
    have hl : ∀ c ∈ (sanitizeQuestion s).data.getLast?, isJsWhitespace c = false := by
      intro c hc
      rw [sanitize_data, List.getLast?_map] at hc
      rcases Option.map_eq_some'.mp hc with ⟨a, ha, hfa⟩
      have hw := jsTrimChars_getLast s.data a ha
      rw [← hfa, newlineToSpace_of_not_ws a hw]
      exact hw
    show String.mk ((jsTrimChars (sanitizeQuestion s).data).map newlineToSpace)
        = sanitizeQuestion s
    rw [jsTrimChars_of_trimmed _ hh hl]
    have : ((sanitizeQuestion s).data).map newlineToSpace = (sanitizeQuestion s).data := by
      have := List.map_congr_left (l := (sanitizeQuestion s).data)
        (f := newlineToSpace) (g := id) (by
          intro a ha
          have : a ≠ '\n' := hnl a ha
          unfold newlineToSpace
          simp [this])
      rw [this, List.map_id]
    rw [this]

/-- Witness for C6: the §8 scenario input. Position 9 of its trimmed form
holds the newline; sanitization puts a single space there, and sanitizing
twice equals sanitizing once (and yields the §8 expected output). -/
theorem claim_C6_sanitization_witness :
    (jsTrimChars scenarioInput.data)[9]? = some '\n'
  ∧ (sanitizeQuestion scenarioInput).data[9]? = some ' '
  ∧ sanitizeQuestion (sanitizeQuestion scenarioInput) = sanitizeQuestion scenarioInput
  ∧ sanitizeQuestion scenarioInput = "Where  is the capital of Turkey?" :=
  ⟨by decide, ((claim_C6_sanitization scenarioInput).2.2.2.2.1 9).1 (by decide),
   (claim_C6_sanitization scenarioInput).2.2.2.2.2, by decide⟩

/-- Claim C7: for every fetched message sequence (the last `historyLength`
messages read from the store), history formatting renders at most
`historyLength` lines, reverses the newest-first read order so line `i` shows
the message at position `length - 1 - i` (chronological, oldest first),
prefixes a line with "USER MESSAGE: " when the role is user and
"YOUR MESSAGE: " otherwise, and joins the lines with newlines. -/
theorem claim_C7_historyFormatting (store : HistoryStore) (sessionId : String)
    (historyLength : Nat) :
    (getMessages store sessionId historyLength).length ≤ historyLength
  ∧ getChatHistory store sessionId historyLength none
      = String.intercalate "\n"
          ((getMessages store sessionId historyLength).reverse.map historyLine)
  ∧ ((getMessages store sessionId historyLength).reverse.map historyLine).length
      = (getMessages store sessionId historyLength).length
  ∧ (∀ i, i < (getMessages store sessionId historyLength).length →
      ((getMessages store sessionId historyLength).reverse.map historyLine)[i]?
        = ((getMessages store sessionId historyLength)[(getMessages store sessionId historyLength).length - 1 - i]?).map historyLine)
  ∧ (∀ m : StoredMessage,
      (m.role = Role.user → historyLine m = "USER MESSAGE: " ++ m.content)
    ∧ (m.role ≠ Role.user → historyLine m = "YOUR MESSAGE: " ++ m.content)) := by
  refine ⟨?_, rfl, by simp, ?_, ?_⟩
  · unfold getMessages
    exact List.length_take_le _ _
  · intro i hi
    rw [List.getElem?_map, List.getElem?_reverse (by simpa using hi)]
  · intro m
    constructor
    · intro h
      simp [historyLine, h]
    · intro h
      simp [historyLine, h]

/-- Witness for C7: on the sample store the session holds two messages
(assistant newest, user oldest); the rendered first line is the older user
message and the prefixes follow the roles. -/
theorem claim_C7_historyFormatting_witness :
    (getMessages sampleStore "session-1" 5).length ≤ 5
  ∧ ((getMessages sampleStore "session-1" 5).reverse.map historyLine)[0]?
      = ((getMessages sampleStore "session-1" 5)[1]?).map historyLine
  ∧ historyLine sampleMsgUser = "USER MESSAGE: " ++ sampleMsgUser.content
  ∧ historyLine sampleMsgAssistant = "YOUR MESSAGE: " ++ sampleMsgAssistant.content :=
  ⟨(claim_C7_historyFormatting sampleStore "session-1" 5).1,
   (claim_C7_historyFormatting sampleStore "session-1" 5).2.2.2.1 0 (by decide),
   ((claim_C7_historyFormatting sampleStore "session-1" 5).2.2.2.2 sampleMsgUser).1 rfl,
   ((claim_C7_historyFormatting sampleStore "session-1" 5).2.2.2.2 sampleMsgAssistant).2
     (by decide)⟩

/-- Claim C10: the `onChatHistoryFetched` hook receives a deep clone of the
fetched messages, so the formatted history depends only on the hook's return
value, never on what the hook did to its argument array; when the hook
returns a list the formatted history is built from it, and when it returns
`undefined` the formatted history is built from the originally fetched
messages, exactly as if no hook were supplied. -/
theorem claim_C10_historyHookClone (original : List StoredMessage) (h : ChatHistoryHook) :
    (∀ h' : ChatHistoryHook, (h' original).ret = (h original).ret →
        processChatHistory original (some h') = processChatHistory original (some h))
  ∧ (∀ l, (h original).ret = some l →
        processChatHistory original (some h)
          = String.intercalate "\n" (l.reverse.map historyLine))
  ∧ ((h original).ret = none →
        processChatHistory original (some h) = processChatHistory original none) := by
  refine ⟨?_, ?_, ?_⟩
  · intro h' he
    simp only [processChatHistory, he]
  · intro l hl
    simp only [processChatHistory, hl, Option.getD_some]
  · intro hn
    simp only [processChatHistory, hn, Option.getD_none]

/-- Witness for C10: a hook that destroys its argument in place but returns
`undefined` leaves the formatted history identical to the hook-free result,
and a hook returning a replacement list determines the formatted history. -/
theorem claim_C10_historyHookClone_witness :
    processChatHistory [sampleMsgAssistant] (some sampleHookMutating)
      = processChatHistory [sampleMsgAssistant] none
  ∧ processChatHistory [sampleMsgAssistant] (some sampleHookReplacing)
      = String.intercalate "\n" ([sampleMsgUser].reverse.map historyLine) :=
  ⟨(claim_C10_historyHookClone [sampleMsgAssistant] sampleHookMutating).2.2 rfl,
   (claim_C10_historyHookClone [sampleMsgAssistant] sampleHookReplacing).2.1
     [sampleMsgUser] rfl⟩

/-- Claim C4 (code bug, evaluated at the failing input): with no call-site
options and an instance config that sets no defaults, the resolved record
leaves `sessionId`, `ratelimitSessionId`, `streaming`, `namespace`, `metadata`
and `promptFn` holding `undefined` instead of the global constant defaults —
`getOptionsWithDefaults` always places those six keys on the intermediate
object (possibly holding `undefined`) and the `...options` spread in
`appendDefaultsIfNeeded` comes after the defaults, so the `undefined` wins.
The fields that reach `appendDefaultsIfNeeded` only through the spread do get
their defaults. -/
theorem claim_C4_resolutionNotTotal :
    (getOptionsWithDefaults {} none).sessionId = none
  ∧ (getOptionsWithDefaults {} none).ratelimitSessionId = none
  ∧ (getOptionsWithDefaults {} none).streaming = none
  ∧ (getOptionsWithDefaults {} none).«namespace» = none
  ∧ (getOptionsWithDefaults {} none).metadata = none
  ∧ (getOptionsWithDefaults {} none).promptFn = none
  ∧ (getOptionsWithDefaults {} none).historyLength = some DEFAULT_HISTORY_LENGTH
  ∧ (getOptionsWithDefaults {} none).historyTTL = some DEFAULT_HISTORY_TTL
  ∧ (getOptionsWithDefaults {} none).topK = some DEFAULT_TOP_K
  ∧ (getOptionsWithDefaults {} none).disableRAG = some false
  ∧ (getOptionsWithDefaults {} none).similarityThreshold
      = some DEFAULT_SIMILARITY_THRESHOLD :=
  ⟨rfl, rfl, rfl, rfl, rfl, rfl, rfl, rfl, rfl, rfl, rfl⟩

/-- Claim C5: if `disableRAG` is true at the call site and no `promptFn` is
supplied there, the resolved `promptFn` is the fixed no-context template and
never the RAG template; a call-site `promptFn` is used unchanged. -/
theorem claim_C5_promptFnResolution (config : ConfigDefaults) (options : ChatOptionsObj) :
    ((joinProp options.disableRAG = some true → joinProp options.promptFn = none →
      (getOptionsWithDefaults config (some options)).promptFn = some PromptFnV.defaultNoRAG
      ∧ (getOptionsWithDefaults config (some options)).promptFn ≠ some PromptFnV.defaultRAG))
  ∧ (∀ f, joinProp options.promptFn = some f →
      (getOptionsWithDefaults config (some options)).promptFn = some f) := by
  constructor
  · intro hd hp
    have hD : options.disableRAG = some (some true) := by
      rcases h1 : options.disableRAG with _ | v
      · rw [h1] at hd; simp [joinProp] at hd
      · rw [h1] at hd
        simp only [joinProp] at hd
        rw [hd]
    have hP : options.promptFn = none ∨ options.promptFn = some none := by
      rcases h2 : options.promptFn with _ | v
      · exact Or.inl rfl
      · rw [h2] at hp
        simp only [joinProp] at hp
        rw [hp]
        exact Or.inr rfl
    rcases hP with hP | hP <;>
      simp [getOptionsWithDefaults, appendDefaultsIfNeeded, jsGet, joinProp, hD, hP]
  · intro f hf
    have hF : options.promptFn = some (some f) := by
      rcases h2 : options.promptFn with _ | v
      · rw [h2] at hf; simp [joinProp] at hf
      · rw [h2] at hf
        simp only [joinProp] at hf
        rw [hf]
    rcases hd : options.disableRAG with _ | ob
    · simp [getOptionsWithDefaults, appendDefaultsIfNeeded, jsGet, joinProp, hd, hF]
    · rcases ob with _ | b
      · simp [getOptionsWithDefaults, appendDefaultsIfNeeded, jsGet, joinProp, hd, hF]
      · cases b <;>
          simp [getOptionsWithDefaults, appendDefaultsIfNeeded, jsGet, joinProp, hd, hF]

/-- Witness for C5: disabling RAG with no prompt function yields the
no-context template; a supplied custom prompt function is kept. -/
theorem claim_C5_promptFnResolution_witness :
    (getOptionsWithDefaults {} (some sampleOptsNoRAG)).promptFn
      = some PromptFnV.defaultNoRAG
  ∧ (getOptionsWithDefaults {} (some sampleOptsCustomPrompt)).promptFn
      = some (PromptFnV.custom 7) :=
  ⟨((claim_C5_promptFnResolution {} sampleOptsNoRAG).1 rfl rfl).1,
   (claim_C5_promptFnResolution {} sampleOptsCustomPrompt).2 (PromptFnV.custom 7) rfl⟩

/-- Claim C9: constructing the orchestrator without a configured model or
without a configured vector store fails synchronously with a configuration
error; the constructor embedding consults no collaborator, so no network call
is attempted. -/
theorem claim_C9_constructorGuards (config : InstanceConfig)
    (h : config.model = none ∨ config.vector = none) :
    ∃ e : ConfigurationError, ragChatConstructor config = Except.error e := by
  unfold ragChatConstructor
  rcases h with hm | hv
  · by_cases hvec : config.vector.isNone
    · exact ⟨ConfigurationError.vectorUndefined, by rw [if_pos hvec]⟩
    · exact ⟨ConfigurationError.modelUndefined,
        by rw [if_neg hvec, if_pos (by simp [hm])]⟩
  · exact ⟨ConfigurationError.vectorUndefined, by rw [if_pos (by simp [hv])]⟩

/-- Witness for C9: a config with a vector store but no model is rejected at
construction time. -/
theorem claim_C9_constructorGuards_witness :
    ∃ e : ConfigurationError,
      ragChatConstructor { vector := some "vector-index" } = Except.error e :=
  claim_C9_constructorGuards { vector := some "vector-index" } (Or.inl rfl)

/-- Claim C1: whenever the rate limiter reports `success = false`, `chat`
rejects with a `RateLimited` error carrying that response's reset time, the
history store is left untouched (no user or assistant message is appended),
and when the `ratelimitDetails` callback is supplied it has been invoked with
the rate-limit response before the rejection was thrown. -/
theorem claim_C1_rateLimitedRejection (opts : ModifiedChatOptions) (env : ChatEnv)
    (input : String) (store : HistoryStore)
    (h : (env.checkLimit opts.ratelimitSessionId).success = false) :
    (chat opts env input store).res
      = Except.error (ChatError.rateLimited (env.checkLimit opts.ratelimitSessionId).reset)
  ∧ (chat opts env input store).store = store
  ∧ (opts.hasRatelimitDetails = true →
      ∃ pre post,
        (chat opts env input store).trace
          = pre ++ Event.ratelimitDetailsInvoked (env.checkLimit opts.ratelimitSessionId)
              :: post
      ∧ Event.rateLimitedThrown (env.checkLimit opts.ratelimitSessionId).reset ∈ post) := by
  refine ⟨?_, ?_, ?_⟩
  · simp [chat, h]
  · simp [chat, h]
  · intro hcb
    refine ⟨[Event.ratelimitChecked (env.checkLimit opts.ratelimitSessionId)],
      [Event.rateLimitedThrown (env.checkLimit opts.ratelimitSessionId).reset], ?_, ?_⟩
    · simp [chat, h, hcb]
    · simp

/-- Witness for C1: with a limiter that rejects with reset time 42 and the
callback supplied, `chat` rejects, writes nothing, and the callback event
precedes the rejection event. -/
theorem claim_C1_rateLimitedRejection_witness :
    (chat sampleOpts sampleEnvLimited "hi" []).res
      = Except.error (ChatError.rateLimited 42)
  ∧ (chat sampleOpts sampleEnvLimited "hi" []).store = []
  ∧ ∃ pre post,
      (chat sampleOpts sampleEnvLimited "hi" []).trace
        = pre ++ Event.ratelimitDetailsInvoked { success := false, reset := 42 } :: post
    ∧ Event.rateLimitedThrown 42 ∈ post :=
  ⟨(claim_C1_rateLimitedRejection sampleOpts sampleEnvLimited "hi" [] rfl).1,
   (claim_C1_rateLimitedRejection sampleOpts sampleEnvLimited "hi" [] rfl).2.1,
   (claim_C1_rateLimitedRejection sampleOpts sampleEnvLimited "hi" [] rfl).2.2 rfl⟩

/-- Claim C2: once the rate-limit check succeeds, `chat` appends the raw,
unsanitized input as a `user` message (it is in the final store whatever the
later steps do), and in the event trace the append is preceded only by the
rate-limit events and happens before sanitization, context retrieval, history
fetch and model invocation. -/
theorem claim_C2_userTurnRecorded (opts : ModifiedChatOptions) (env : ChatEnv)
    (input : String) (store : HistoryStore)
    (h : (env.checkLimit opts.ratelimitSessionId).success = true) :
    ((opts.sessionId,
        ({ content := input, role := Role.user, metadata := none } : StoredMessage))
      ∈ (chat opts env input store).store)
  ∧ ∃ post,
      (chat opts env input store).trace
        = ([Event.ratelimitChecked (env.checkLimit opts.ratelimitSessionId)]
            ++ (if opts.hasRatelimitDetails then
                  [Event.ratelimitDetailsInvoked (env.checkLimit opts.ratelimitSessionId)]
                else []))
          ++ Event.userMessageAppended input :: post
    ∧ Event.sanitized (sanitizeQuestion input) ∈ post
    ∧ Event.contextRequested input ∈ post
    ∧ (Event.historyFetched ∈ (chat opts env input store).trace →
        Event.historyFetched ∈ post)
    ∧ (∀ p, Event.modelInvoked p ∈ (chat opts env input store).trace →
        Event.modelInvoked p ∈ post) := by
  constructor
  · rcases hc : env.getContext input with e | ctx
    · simp [chat, h, hc, addMessage]
    · rcases hh : env.historyOutcome with e | u
      · simp [chat, h, hc, hh, addMessage]
      · rcases hm : env.callModel (opts.promptFn
            { chatHistory := getChatHistory
                (addMessage store opts.sessionId
                  { content := input, role := Role.user, metadata := none })
                opts.sessionId opts.historyLength opts.onChatHistoryFetched,
              question := sanitizeQuestion input, context := ctx }) with e | out
        · simp only [chat, h, hc, hh, hm]
          simp [addMessage]
        · simp only [chat, h, hc, hh, hm]
          simp [addMessage]
  · rcases hc : env.getContext input with e | ctx
    · refine ⟨[Event.sanitized (sanitizeQuestion input), Event.contextRequested input],
        ?_, by simp, by simp, ?_, ?_⟩
      · simp [chat, h, hc]
      · simp [chat, h, hc]
      · simp [chat, h, hc]
    · rcases hh : env.historyOutcome with e | u
      · refine ⟨[Event.sanitized (sanitizeQuestion input), Event.contextRequested input],
          ?_, by simp, by simp, ?_, ?_⟩
        · simp [chat, h, hc, hh]
        · simp [chat, h, hc, hh]
        · simp [chat, h, hc, hh]
      · rcases hm : env.callModel (opts.promptFn
            { chatHistory := getChatHistory
                (addMessage store opts.sessionId
                  { content := input, role := Role.user, metadata := none })
                opts.sessionId opts.historyLength opts.onChatHistoryFetched,
              question := sanitizeQuestion input, context := ctx }) with e | out
        · refine ⟨[Event.sanitized (sanitizeQuestion input), Event.contextRequested input,
            Event.historyFetched,
            Event.promptBuilt (opts.promptFn
              { chatHistory := getChatHistory
                  (addMessage store opts.sessionId
                    { content := input, role := Role.user, metadata := none })
                  opts.sessionId opts.historyLength opts.onChatHistoryFetched,
                question := sanitizeQuestion input, context := ctx }),
            Event.modelInvoked (opts.promptFn
              { chatHistory := getChatHistory
                  (addMessage store opts.sessionId
                    { content := input, role := Role.user, metadata := none })
                  opts.sessionId opts.historyLength opts.onChatHistoryFetched,
                question := sanitizeQuestion input, context := ctx })],
            ?_, by simp, by simp, ?_, ?_⟩
          · simp [chat, h, hc, hh, hm]
          · simp [chat, h, hc, hh, hm]
          · intro p hp
            simp [chat, h, hc, hh, hm] at hp
            simp [hp]
        · refine ⟨[Event.sanitized (sanitizeQuestion input), Event.contextRequested input,
            Event.historyFetched,
            Event.promptBuilt (opts.promptFn
              { chatHistory := getChatHistory
                  (addMessage store opts.sessionId
                    { content := input, role := Role.user, metadata := none })
                  opts.sessionId opts.historyLength opts.onChatHistoryFetched,
                question := sanitizeQuestion input, context := ctx }),
            Event.modelInvoked (opts.promptFn
              { chatHistory := getChatHistory
                  (addMessage store opts.sessionId
                    { content := input, role := Role.user, metadata := none })
                  opts.sessionId opts.historyLength opts.onChatHistoryFetched,
                question := sanitizeQuestion input, context := ctx }),
            Event.assistantMessageAppended out],
            ?_, by simp, by simp, ?_, ?_⟩
          · simp [chat, h, hc, hh, hm]
          · simp [chat, h, hc, hh, hm]
          · intro p hp
            simp [chat, h, hc, hh, hm] at hp
            simp [hp]

/-- Witness for C2: a concrete allowed call stores the raw user turn and the
trace decomposes around the append. -/
theorem claim_C2_userTurnRecorded_witness :
    (("session-1",
        ({ content := "hi", role := Role.user, metadata := none } : StoredMessage))
      ∈ (chat sampleOpts sampleEnvOk "hi" []).store)
  ∧ ∃ post,
      (chat sampleOpts sampleEnvOk "hi" []).trace
        = ([Event.ratelimitChecked { success := true, reset := 0 }]
            ++ (if sampleOpts.hasRatelimitDetails then
                  [Event.ratelimitDetailsInvoked { success := true, reset := 0 }]
                else []))
          ++ Event.userMessageAppended "hi" :: post
    ∧ Event.sanitized (sanitizeQuestion "hi") ∈ post
    ∧ Event.contextRequested "hi" ∈ post
    ∧ (Event.historyFetched ∈ (chat sampleOpts sampleEnvOk "hi" []).trace →
        Event.historyFetched ∈ post)
    ∧ (∀ p, Event.modelInvoked p ∈ (chat sampleOpts sampleEnvOk "hi" []).trace →
        Event.modelInvoked p ∈ post) :=
  claim_C2_userTurnRecorded sampleOpts sampleEnvOk "hi" [] rfl

/-- Claim C8: when the rate limit passes and retrieval, history fetch and the
model call all complete, `chat` appends exactly one assistant message whose
content is the model's full output and whose metadata is the resolved
options' metadata, on top of the user turn, and resolves with that output in
the caller's requested mode. -/
theorem claim_C8_assistantPersisted (opts : ModifiedChatOptions) (env : ChatEnv)
    (input : String) (store : HistoryStore) (ctx out : String)
    (h : (env.checkLimit opts.ratelimitSessionId).success = true)
    (hc : env.getContext input = Except.ok ctx)
    (hh : env.historyOutcome = Except.ok ())
    (hm : env.callModel (opts.promptFn
        { chatHistory := getChatHistory
            (addMessage store opts.sessionId
              { content := input, role := Role.user, metadata := none })
            opts.sessionId opts.historyLength opts.onChatHistoryFetched,
          question := sanitizeQuestion input, context := ctx }) = Except.ok out) :
    (chat opts env input store).res = Except.ok { output := out, isStream := opts.streaming }
  ∧ (chat opts env input store).store
      = (opts.sessionId,
          ({ content := out, role := Role.assistant,
             metadata := some opts.metadata } : StoredMessage))
        :: (opts.sessionId,
          ({ content := input, role := Role.user, metadata := none } : StoredMessage))
        :: store
  ∧ (chat opts env input store).trace.filter isAssistantAppendEvent
      = [Event.assistantMessageAppended out] := by
  refine ⟨?_, ?_, ?_⟩
  · simp [chat, h, hc, hh, hm]
  · have hst : (chat opts env input store).store
        = addMessage
            (addMessage store opts.sessionId
              { content := input, role := Role.user, metadata := none })
            opts.sessionId
            { content := out, role := Role.assistant, metadata := some opts.metadata } := by
      simp [chat, h, hc, hh, hm]
    rw [hst]
    rfl
  · cases hcb : opts.hasRatelimitDetails <;>
      simp [chat, h, hc, hh, hm, hcb, isAssistantAppendEvent, List.filter]

/-- Witness for C8: the concrete allowed call persists the model answer with
the resolved metadata and returns it non-streaming. -/
theorem claim_C8_assistantPersisted_witness :
    (chat sampleOpts sampleEnvOk "hi" []).res
      = Except.ok { output := "ANSWER", isStream := false }
  ∧ (chat sampleOpts sampleEnvOk "hi" []).store
      = [("session-1",
          ({ content := "ANSWER", role := Role.assistant,
             metadata := some [("source", "test")] } : StoredMessage)),
         ("session-1",
          ({ content := "hi", role := Role.user, metadata := none } : StoredMessage))]
  ∧ (chat sampleOpts sampleEnvOk "hi" []).trace.filter isAssistantAppendEvent
      = [Event.assistantMessageAppended "ANSWER"] :=
  claim_C8_assistantPersisted sampleOpts sampleEnvOk "hi" [] "CTX" "ANSWER" rfl rfl rfl rfl

/-- Counterexample to claim C3 as stated: for the input "a\nb" (whose
sanitized form "a b" differs from it), the question `chat` passes to the
context retriever is the raw input — the sanitized form is never passed. -/
theorem claim_C3_counterexample :
    Event.contextRequested "a\nb" ∈ (chat sampleOpts sampleEnvOk "a\nb" []).trace
  ∧ Event.contextRequested (sanitizeQuestion "a\nb")
      ∉ (chat sampleOpts sampleEnvOk "a\nb" []).trace
  ∧ sanitizeQuestion "a\nb" = "a b" := by
  refine ⟨by decide, by decide, by decide⟩

/-- Claim C3 as amended: in every `chat` call that passes the rate limit, the
question handed to the context retriever is exactly the raw input string
(line 89 of the source passes `input`, not the sanitized `question`); the
sanitized form is used for the prompt, as `prepareChat` — which does retrieve
with the sanitized question — shows by contrast. -/
theorem claim_C3_amended_rawInputToRetriever (opts : ModifiedChatOptions) (env : ChatEnv)
    (input : String) (store : HistoryStore)
    (h : (env.checkLimit opts.ratelimitSessionId).success = true) :
    (∀ s, Event.contextRequested s ∈ (chat opts env input store).trace ↔ s = input)
  ∧ (∀ retrieve : String → String,
      (prepareChat retrieve input).2 = retrieve (sanitizeQuestion input)) := by
  constructor
  · intro s
    cases hcb : opts.hasRatelimitDetails
    · simp only [chat, h, hcb]
      split
      · rename_i hbad
        simp at hbad
      · split
        · simp
        · split
          · simp
          · split
            · simp
            · simp
    · simp only [chat, h, hcb]
      split
      · rename_i hbad
        simp at hbad
      · split
        · simp
        · split
          · simp
          · split
            · simp
            · simp
  · intro retrieve
    rfl

/-- Witness for the amended C3: a concrete allowed call requests context for
the raw input, and `prepareChat` retrieves with the sanitized question. -/
theorem claim_C3_amended_rawInputToRetriever_witness :
    Event.contextRequested "x" ∈ (chat sampleOpts sampleEnvOk "x" []).trace
  ∧ (prepareChat (fun q => q) "a\nb").2 = "a b" :=
  ⟨((claim_C3_amended_rawInputToRetriever sampleOpts sampleEnvOk "x" [] rfl).1 "x").mpr rfl,
   by rw [(claim_C3_amended_rawInputToRetriever sampleOpts sampleEnvOk "a\nb" [] rfl).2
       (fun q => q)]; decide⟩
